import Mathlib

/-!
Verification of the hybrid candidate-ranking pipeline of the
restaurant-recommendation repository.

Shallow embedding conventions:
* Python floats are modelled as real numbers (`ℝ`) where the code does real
  analysis (square roots, trigonometry) and as rationals (`ℚ`) where the code
  only does field arithmetic and comparisons, so that the model stays
  executable there.
* Python dicts used as keyed maps are modelled as association lists in
  insertion order (Python dicts preserve insertion order).
* Fallible code is modelled with `Except`; a total Lean function models a
  Python function that cannot raise on the modelled inputs.
* Values read from the file system (the interaction log, the pickled model,
  the JSON metadata) are passed to the modelled functions as explicit inputs.

The file lists all definitions first and then the theorems.
-/

namespace RestaurantRec

/-! ## Errors raised by the modelled Python code -/

/-- Python exceptions that the modelled fragments can raise. -/
inductive PyErr where
  | typeError
  | valueError
  deriving DecidableEq, Repr

/-! ## Retrain scheduler (src/agent/chains/cf_model.py, lines 127-155)

The module-level state consists of the `_TRAINING` flag (guarded by
`_TRAIN_LOCK`), the set of running background training jobs, and the persisted
watermark `trained_pos_count` stored in `cf_model_meta.json` (read by
`_load_meta`, written by `_save_meta`).  `_count_positive` and `_load_meta`
read files; their results enter the model as the `pos` and `meta` inputs. -/

/-- State of the retrain scheduler: the `_TRAINING` flag, the list of running
background jobs (each job carries the positive count `pos` observed at trigger
time, the `pos_count` argument of `_train_background`), and the persisted
watermark `trained_pos_count`. -/
structure SchedState where
  training : Bool
  jobs : List ℕ
  meta : ℕ
  deriving DecidableEq, Repr

/-- Initial scheduler state: flag clear, no job running, `_load_meta` returns 0
when the metadata file does not exist. -/
def SchedState.init : SchedState := { training := false, jobs := [], meta := 0 }

/-- Model of `trigger_retrain_if_needed` (cf_model.py lines 142-155).
`pos` is the result of `_count_positive(LOG_PATH)` and `s.meta` the result of
`_load_meta(META_PATH)`.  Python integer subtraction is signed, hence the cast
to `ℤ`.  Returns the new state and whether a background job was launched. -/
def triggerRetrainIfNeeded (pos : ℕ) (threshold : ℤ) (s : SchedState) :
    SchedState × Bool :=
  if (pos : ℤ) - (s.meta : ℤ) < threshold then (s, false)
  else if s.training then (s, false)
  else ({ training := true, jobs := s.jobs ++ [pos], meta := s.meta }, true)

/-- Model of the scheduler effects of `_train_background` (lines 127-139) when
the running job finishes.  `success` tells whether the `try` block (the
`train` call and `_save_meta`) ran to completion; on success the watermark
becomes the job's trigger-time count, on failure the `except Exception: pass`
swallows the error and the watermark is untouched; the `finally` block always
clears the `_TRAINING` flag. -/
def completeTraining (success : Bool) (s : SchedState) : SchedState :=
  match s.jobs with
  | [] => { s with training := false }
  | p :: rest =>
      { training := false, jobs := rest,
        meta := if success then p else s.meta }

/-- Events of the scheduler's interleaving semantics: a trigger check run on
some request thread (with the positive count it read from the log and its
threshold), or the completion (successful or not) of the running background
job. -/
inductive SchedEvent where
  | trigger (pos : ℕ) (threshold : ℤ)
  | complete (success : Bool)
  deriving DecidableEq, Repr

/-- One atomic step of the scheduler.  The lock `_TRAIN_LOCK` makes the
check-and-set of `_TRAINING` in the trigger and the flag clear in the
`finally` block atomic sections. -/
def schedStep (s : SchedState) : SchedEvent → SchedState
  | .trigger pos threshold => (triggerRetrainIfNeeded pos threshold s).1
  | .complete success => completeTraining success s

/-- Run the scheduler over a sequence of interleaved events. -/
def schedRun (s : SchedState) (evs : List SchedEvent) : SchedState :=
  evs.foldl schedStep s

/-- Scheduler invariant: the `_TRAINING` flag counts the running jobs. -/
def SchedInv (s : SchedState) : Prop :=
  s.jobs.length = if s.training then 1 else 0

/-! ## Offline CF scorer (src/agent/chains/cf_model.py, lines 23-86) -/

/-- In-memory state of `CFModel` after `__init__` and `_load`: the fields of
the pickled artifact plus the `_loaded` flag.  The index dicts are modelled as
association lists from string id to integer offset.  `_ensure_fresh` only
swaps in a freshly loaded state read from disk, so a `score` call is modelled
against the state that is current when it runs.  Factor entries are Python
floats, modelled as rationals. -/
structure CFModel where
  user_factors : List (List ℚ)
  item_factors : List (List ℚ)
  user_index : List (String × ℕ)
  item_index : List (String × ℕ)
  factors : ℕ
  loaded : Bool

/-- Inner product of two factor vectors, matching
`sum(u * v for u, v in zip(uvec, ivec))` (cf_model.py line 73). -/
def dotZip (u v : List ℚ) : ℚ := (List.zipWith (fun a b => a * b) u v).sum

/-- Model of `CFModel.score` (cf_model.py lines 60-73): 0.0 when the model is
not loaded, when either id misses its index dict, or when a resolved offset is
out of bounds for the corresponding factor matrix; otherwise the inner product
of the two factor rows.  The Python code cannot raise here: every access is
guarded, which the model reflects by being a total function. -/
def CFModel.score (m : CFModel) (user_id item_id : String) : ℚ :=
  if m.loaded = false then 0
  else
    match m.user_index.lookup user_id, m.item_index.lookup item_id with
    | some uidx, some iidx =>
        if m.user_factors.length ≤ uidx ∨ m.item_factors.length ≤ iidx then 0
        else dotZip (m.user_factors.getD uidx []) (m.item_factors.getD iidx [])
    | _, _ => 0

/-- Concrete loaded model used to witness C4. -/
def cfModelExample : CFModel :=
  { user_factors := [[1, 2]], item_factors := [[3, 4]],
    user_index := [("u1", 0)], item_index := [("i1", 0)],
    factors := 2, loaded := true }

/-! ## Bandit reranker (src/agent/chains/bandit.py) -/

/-- State of `SimpleLinUCB` (bandit.py lines 44-51): exploration coefficient
`alpha`, the diagonal `A_diag` of the A matrix and the reward-weighted sums
`b`, both of dimension `n` (`dim`, 5 in every use).  `__init__` sets
`A_diag = [1.0] * dim` and `b = [0.0] * dim`. -/
structure SimpleLinUCB (n : ℕ) where
  alpha : ℝ
  A_diag : Fin n → ℝ
  b : Fin n → ℝ

/-- Model of `SimpleLinUCB.__init__` (bandit.py lines 47-51). -/
noncomputable def SimpleLinUCB.init (n : ℕ) (alpha : ℝ) : SimpleLinUCB n :=
  { alpha := alpha, A_diag := fun _ => 1, b := fun _ => 0 }

/-- Model of `SimpleLinUCB._theta` (bandit.py lines 53-54). -/
noncomputable def SimpleLinUCB.theta {n : ℕ} (m : SimpleLinUCB n) : Fin n → ℝ :=
  fun i => m.b i / m.A_diag i

/-- Model of `SimpleLinUCB.score` (bandit.py lines 56-61): the point estimate
plus the diagonal-approximation confidence term. -/
noncomputable def SimpleLinUCB.score {n : ℕ} (m : SimpleLinUCB n)
    (x : Fin n → ℝ) : ℝ :=
  (∑ i, m.theta i * x i) +
    m.alpha * Real.sqrt (∑ i, (x i) ^ 2 / m.A_diag i)

/-- Model of `SimpleLinUCB.update` (bandit.py lines 63-66):
`A_diag[i] += x[i] ** 2; b[i] += x[i] * reward`. -/
noncomputable def SimpleLinUCB.update {n : ℕ} (m : SimpleLinUCB n)
    (x : Fin n → ℝ) (reward : ℝ) : SimpleLinUCB n :=
  { alpha := m.alpha,
    A_diag := fun i => m.A_diag i + (x i) ^ 2,
    b := fun i => m.b i + x i * reward }

/-- A finite sequence of `update` calls applied in order. -/
noncomputable def SimpleLinUCB.applyUpdates {n : ℕ} (m : SimpleLinUCB n)
    (l : List ((Fin n → ℝ) × ℝ)) : SimpleLinUCB n :=
  l.foldl (fun m p => m.update p.1 p.2) m

/-- A model state is reachable when some finite sequence of updates produces
it from the initial state (`alpha` is fixed at construction). -/
def SimpleLinUCB.Reachable {n : ℕ} (m : SimpleLinUCB n) : Prop :=
  ∃ l : List ((Fin n → ℝ) × ℝ), m = (SimpleLinUCB.init n m.alpha).applyUpdates l

/-- Candidate fields consumed by `_feature_vector` (bandit.py lines 14-41).
`price_range` models the parse of the `"min-max"` price string in lines
19-27: `none` stands for a string without a dash or with unparseable parts
(both leave `price_min = price_max = 0.0`), `some (pmin, pmax)` for a
successful parse.  The other three fields are `None`-or-float dict entries;
Python's `x or 0.0` collapses `None` and `0.0`, matching `Option.getD 0`. -/
structure BCand where
  distance_km : Option ℝ
  rating : Option ℝ
  cf_score : Option ℝ
  price_range : Option (ℚ × ℚ)

/-- Query fields consumed by `_feature_vector` (bandit.py lines 29-30):
`query.get("price_range") or {}` followed by `.get("min") or 0.0` and
`.get("max") or 0.0`. -/
structure BQuery where
  price_range : Option (Option ℚ × Option ℚ)

/-- The price-fit computation of `_feature_vector` (bandit.py lines 19-38),
with Python float truthiness (`if up_min:` means `up_min ≠ 0`). -/
def priceFit (c : BCand) (q : BQuery) : ℚ :=
  let pm := c.price_range.getD (0, 0)
  let up := q.price_range.getD (none, none)
  let up_min : ℚ := up.1.getD 0
  let up_max : ℚ := up.2.getD 0
  if up_min ≠ 0 ∨ up_max ≠ 0 then
    if up_min ≠ 0 ∧ pm.2 ≠ 0 ∧ pm.2 < up_min then -1
    else if up_max ≠ 0 ∧ pm.1 ≠ 0 ∧ up_max < pm.1 then -1
    else 1
  else 0

/-- Model of `_feature_vector` (bandit.py lines 14-41):
`[1 (bias), rating, -distance, price_fit, cf_score]`. -/
noncomputable def featureVector (c : BCand) (q : BQuery) : Fin 5 → ℝ :=
  ![1, c.rating.getD 0, -(c.distance_km.getD 0),
    ((priceFit c q : ℚ) : ℝ), c.cf_score.getD 0]

/-- Price conflict as worded by claim C5: one interval's max provably below
the other interval's min, with both intervals present. -/
def claimPriceConflict (c : BCand) (q : BQuery) : Bool :=
  match c.price_range, q.price_range with
  | some (cmin, cmax), some (umin, umax) =>
      umin.any (fun um => decide (cmax < um)) ||
        umax.any (fun uM => decide (uM < cmin))
  | _, _ => false

/-- The price-fit feature as worded by claim C5: 0 when no price data exists
on either side, -1 on a provable conflict, +1 otherwise. -/
def claimPriceFit (c : BCand) (q : BQuery) : ℚ :=
  if c.price_range = none ∧ q.price_range = none then 0
  else if claimPriceConflict c q then -1 else 1

/-- The price-fit feature as amended: 0 exactly when the user requested no
nonzero price bound; otherwise -1 when the candidate's parsed interval
provably conflicts with the user's bounds (comparisons only fire on nonzero
values, zero meaning absent), else +1 — even when the candidate has no price
data. -/
def amendedPriceFit (c : BCand) (q : BQuery) : ℚ :=
  let pm := c.price_range.getD (0, 0)
  let up := q.price_range.getD (none, none)
  let up_min : ℚ := up.1.getD 0
  let up_max : ℚ := up.2.getD 0
  if up_min = 0 ∧ up_max = 0 then 0
  else if (up_min ≠ 0 ∧ pm.2 ≠ 0 ∧ pm.2 < up_min) ∨
      (up_max ≠ 0 ∧ pm.1 ≠ 0 ∧ up_max < pm.1) then -1
  else 1

/-- Candidate used in the C5 counterexample: it has a parsed price interval,
so the claim's trichotomy does not place it in the 0 case. -/
def bCandPriced : BCand :=
  { distance_km := none, rating := none, cf_score := none,
    price_range := some (20000, 30000) }

/-- Query used in the C5 counterexample: the user requested no price range. -/
def bQueryNoPrice : BQuery := { price_range := none }

/-! ## Online CF fallback (src/agent/chains/cf_online.py) -/

/-- A raw scalar field read from a CSV row or dict: absent (`None` or missing
key), the empty string, a value whose `float(...)` parse succeeds with value
`q`, or a non-empty unparseable string. -/
inductive RawNum where
  | missing
  | empty
  | num (q : ℚ)
  | junk
  deriving DecidableEq, Repr

/-- `float(x)` under `try/except`: `some q` when the parse succeeds. -/
def pyFloat : RawNum → Option ℚ
  | .num q => some q
  | _ => none

/-- The reward parse of `OnlineCF._load` (cf_online.py lines 37-40):
`float(row.get("reward", 0) or 0)` with the exception handler — a missing or
empty field becomes `float(0)`, an unparseable one becomes 0.0 in the
`except` arm. -/
def rewardVal : RawNum → ℚ
  | .num q => q
  | _ => 0

/-- Python's `str.strip()`: drop whitespace from both ends. -/
def pyStrip (s : String) : String :=
  ⟨((s.data.dropWhile Char.isWhitespace).reverse.dropWhile
      Char.isWhitespace).reverse⟩

/-- One row of `interactions_log.csv` as read by `csv.DictReader`. -/
structure LogRow where
  user_id : String
  restaurant_id : String
  reward : RawNum

/-- In-memory state of `OnlineCF` after `_load`: insertion-ordered dicts
(association lists) for `user_items` (item sets kept as first-insertion-order
duplicate-free lists), `item_popularity` and `user_item_reward`. -/
structure OnlineCF where
  user_items : List (String × List String)
  item_popularity : List (String × ℚ)
  user_item_reward : List (String × List (String × ℚ))
  deriving DecidableEq, Repr

/-- Dict write `d[k] = f(d.get(k))`, keeping insertion order: an existing key
is updated in place, a new key is appended. -/
def alUpdate {α : Type} (l : List (String × α)) (k : String)
    (f : Option α → α) : List (String × α) :=
  match l with
  | [] => [(k, f none)]
  | (k2, v) :: rest =>
      if k2 = k then (k2, f (some v)) :: rest
      else (k2, v) :: alUpdate rest k f

/-- The effect of one CSV row on the `OnlineCF` dicts
(cf_online.py lines 30-45): rows with a blank user or item are skipped, as
are rows with reward ≤ 0; otherwise the item joins the user's set, its
popularity grows by the reward, and `user_item_reward[user][item]` is
overwritten with the reward. -/
def loadRow (s : OnlineCF) (row : LogRow) : OnlineCF :=
  let user := pyStrip row.user_id
  let item := pyStrip row.restaurant_id
  if user = "" ∨ item = "" then s
  else
    let reward := rewardVal row.reward
    if reward ≤ 0 then s
    else
      { user_items := alUpdate s.user_items user
          (fun o => let cur := o.getD []; if item ∈ cur then cur else cur ++ [item]),
        item_popularity := alUpdate s.item_popularity item
          (fun o => o.getD 0 + reward),
        user_item_reward := alUpdate s.user_item_reward user
          (fun o => alUpdate (o.getD []) item (fun _ => reward)) }

/-- Model of `OnlineCF.__init__`/`_load` over the rows read from the log. -/
def OnlineCF.load (rows : List LogRow) : OnlineCF :=
  rows.foldl loadRow
    { user_items := [], item_popularity := [], user_item_reward := [] }

/-- Model of `OnlineCF._jaccard` (cf_online.py lines 47-53) on the
duplicate-free item lists standing for Python sets. -/
def jaccard (a b : List String) : ℚ :=
  if a = [] ∨ b = [] then 0
  else
    let inter := (a.filter (fun x => x ∈ b)).length
    let uni := (a ++ b.filter (fun x => x ∉ a)).length
    if uni = 0 then 0 else (inter : ℚ) / (uni : ℚ)

/-- A candidate dict as seen by `score_candidates`; only the id-resolution
fields matter for scoring, `name` stands for the rest of the payload.  A
`Cand` models a Python dict, which is unhashable. -/
structure Cand where
  restaurant_id : Option String
  url : Option String
  name : String
  deriving DecidableEq, Repr

/-- Id resolution `str(c.get("restaurant_id") or c.get("url") or i)`
(cf_online.py line 57), with Python's empty string falsy in the `or` chain. -/
def candId (c : Cand) (i : ℕ) : String :=
  let r := c.restaurant_id.getD ""
  if r ≠ "" then r
  else
    let u := c.url.getD ""
    if u ≠ "" then u else toString i

/-- The similar-user map (cf_online.py lines 60-66): every other user with
strictly positive Jaccard similarity to the target's item set, in
`user_items` insertion order. -/
def simsFor (cf : OnlineCF) (user_id : String) : List (String × ℚ) :=
  let user_set := (cf.user_items.lookup user_id).getD []
  cf.user_items.filterMap (fun p =>
    if p.1 = user_id then none
    else
      let sim := jaccard user_set p.2
      if 0 < sim then some (p.1, sim) else none)

/-- The body of the scoring loop for one candidate id (cf_online.py lines
69-75): accumulate `sim * reward` over similar users restricted to rewards
> 0; the defaultdict read in `if scores[cid] == 0` inserts the key with 0 if
absent; when the accumulated value is 0 and the item has a popularity entry,
add `0.1 * popularity`. -/
def scoreOne (cf : OnlineCF) (sims : List (String × ℚ))
    (scores : List (String × ℚ)) (cid : String) : List (String × ℚ) :=
  let scores := sims.foldl (fun sc p =>
      let r := (((cf.user_item_reward.lookup p.1).getD []).lookup cid).getD 0
      if 0 < r then alUpdate sc cid (fun o => o.getD 0 + p.2 * r) else sc)
    scores
  let scores :=
    if (scores.lookup cid).isSome then scores else scores ++ [(cid, 0)]
  if (scores.lookup cid).getD 0 = 0 ∧ (cf.item_popularity.lookup cid).isSome
  then alUpdate scores cid
    (fun o => o.getD 0 + (1 / 10) * ((cf.item_popularity.lookup cid).getD 0))
  else scores

/-- The `scores` dict built by `score_candidates` (cf_online.py lines 68-75),
keys in first-touch order (the candidate order). -/
def onlineScores (cf : OnlineCF) (user_id : String) (cands : List Cand) :
    List (String × ℚ) :=
  let candIds := cands.enum.map (fun p => candId p.2 p.1)
  candIds.foldl (scoreOne cf (simsFor cf user_id)) []

/-- Stable insertion into a descending-sorted list: an element goes before
the first strictly smaller value, so earlier elements precede later ones on
ties — the behaviour of Python's stable `sorted(..., reverse=True)`. -/
def insertByDesc (x : String × ℚ) : List (String × ℚ) → List (String × ℚ)
  | [] => [x]
  | y :: ys => if y.2 ≤ x.2 then x :: y :: ys else y :: insertByDesc x ys

/-- Stable descending sort by score, matching
`sorted(scores.items(), key=lambda t: t[1], reverse=True)`. -/
def sortDesc (l : List (String × ℚ)) : List (String × ℚ) :=
  l.foldr insertByDesc []

/-- The dict `{cid: c for cid, c in zip(cand_ids, candidates)}`
(cf_online.py line 78): on duplicate ids the later candidate wins. -/
def idToCand (cands : List Cand) : List (String × Cand) :=
  (cands.enum.map (fun p => (candId p.2 p.1, p.2))).foldl
    (fun acc p => alUpdate acc p.1 (fun _ => p.2)) []

/-- Model of `OnlineCF.score_candidates` (cf_online.py lines 55-86).  The
`scores` dict and the `ranked` list are built as in the source; then the
fallback loop `for cid, cand in id_to_candidate.items(): if cand not in seen
and ...` evaluates `cand not in seen` where `seen` is a set of the float
scores and `cand` is a candidate *dict*: set membership hashes its argument
even when the set is empty, and dicts are unhashable, so the call raises
`TypeError` for every non-empty candidate list and only an empty list reaches
`return ranked[:top_k]`. -/
def OnlineCF.score_candidates (cf : OnlineCF) (user_id : String)
    (cands : List Cand) (top_k : ℕ) : Except PyErr (List (Cand × ℚ)) :=
  let scores := onlineScores cf user_id cands
  let ranked := (sortDesc scores).map (fun p =>
    (((idToCand cands).lookup p.1).getD
      { restaurant_id := none, url := none, name := "" }, p.2))
  if cands.isEmpty then Except.ok (ranked.take top_k)
  else Except.error PyErr.typeError

/-- The interaction log of the C6 scenario: target user u1 liked items a and
b, user u2 liked items b and c, all with reward 1.0. -/
def c6Rows : List LogRow :=
  [{ user_id := "u1", restaurant_id := "a", reward := .num 1 },
   { user_id := "u1", restaurant_id := "b", reward := .num 1 },
   { user_id := "u2", restaurant_id := "b", reward := .num 1 },
   { user_id := "u2", restaurant_id := "c", reward := .num 1 }]

/-- The single candidate of the C6 scenario: u2's second liked item. -/
def c6Cand : Cand := { restaurant_id := some "c", url := none, name := "Quan C" }

/-! ## Geo/attribute filter (src/agent/chains/retrieval_agent.py) -/

/-- `math.radians`: degree-to-radian conversion. -/
noncomputable def radians (x : ℝ) : ℝ := x * Real.pi / 180

/-- Model of `_haversine_km` (retrieval_agent.py lines 21-31), Earth radius
fixed at 6371 km.  `math.atan2 y x` is the argument of the complex number
`x + y*i`. -/
noncomputable def haversineKm (lat1 lon1 lat2 lon2 : ℝ) : ℝ :=
  let r : ℝ := 6371
  let dlat := radians (lat2 - lat1)
  let dlon := radians (lon2 - lon1)
  let a := Real.sin (dlat / 2) ^ 2 +
    Real.cos (radians lat1) * Real.cos (radians lat2) * Real.sin (dlon / 2) ^ 2
  let c := 2 * Complex.arg ⟨Real.sqrt (1 - a), Real.sqrt a⟩
  r * c

/-- Python's `str.lower()` restricted to the character-wise mapping. -/
def pyLower (s : String) : String := ⟨s.data.map Char.toLower⟩

/-- Metadata of one raw item as consumed by the filter.  String-or-list
fields (`cuisines`, `categories`) are modelled as their list of entries (a
raw comma-joined string stands for its comma-split, which is what
`_normalize_list_field` produces from it); scalar fields that the code runs
through `float(...)` are `RawNum`s. -/
structure Meta where
  name : Option String
  branch_name : Option String
  cuisines : List String
  categories : List String
  avg_rating : RawNum
  latitude : RawNum
  longitude : RawNum
  address : Option String
  detail_url : Option String
  delivery_url : Option String

/-- Model of `_normalize_list_field` (lines 34-39): strip and lowercase each
entry, keeping only the non-blank ones. -/
def normalizeListField (value : List String) : List String :=
  (value.map (fun s => pyLower (pyStrip s))).filter (fun s => s != "")

/-- The alias table `_CUISINE_ALIASES` (lines 51-56). -/
def cuisineAliases (key : String) : List String :=
  if key = "fried chicken" then ["ga ran", "fried chicken", "chicken"]
  else if key = "chicken" then ["ga", "ga ran", "chicken"]
  else if key = "korean" then ["han quoc", "korean"]
  else if key = "bbq" then ["barbecue", "nuong", "bbq"]
  else []

/-- Model of `_expand_requested` (lines 59-64): each requested token followed
by its aliases (looked up lowercased, defaulting to `[]`). -/
def expandRequested (requested : List String) : List String :=
  (requested.map (fun item => item :: cuisineAliases (pyLower item))).flatten

/-- Python's substring test `t in f` on strings. -/
def substrIn (t f : String) : Bool := decide (t.data <:+: f.data)

/-- Model of `_passes_cuisine_filter` (lines 67-77).  The argument `norm`
stands for `_normalize_text` (lines 42-48), whose lowercasing and
diacritic-stripping rest on the external `unicodedata` tables; every theorem
below holds for an arbitrary such normalization. -/
def passesCuisineFilter (norm : String → String) (meta : Meta)
    (requested : List String) : Bool :=
  if requested.isEmpty then true
  else
    let cuisine_fields :=
      normalizeListField meta.cuisines ++ normalizeListField meta.categories
    let name_fields := [meta.name.getD "", meta.branch_name.getD ""]
    let normalized_fields := (cuisine_fields ++ name_fields).map norm
    let requested_tokens := (expandRequested requested).map norm
    requested_tokens.any (fun token =>
      normalized_fields.any (fun field => substrIn token field))

/-- Model of `_passes_rating` (lines 80-87): no minimum, or an absent or
unparseable rating, passes; otherwise compare. -/
def passesRating (meta : Meta) (rating_min : Option ℚ) : Bool :=
  match rating_min with
  | none => true
  | some rm =>
      match pyFloat meta.avg_rating with
      | none => true
      | some rating => decide (rm ≤ rating)

/-- The user location dict `query.get("user_location") or
{"lat": None, "lng": None}`; `.missing` stands for `None`. -/
structure UserLoc where
  lat : RawNum
  lng : RawNum

/-- Model of `_passes_distance` (lines 90-103): no limit passes; a candidate
coordinate that is `None` or `""` passes; a `None` user coordinate passes;
a failing `float(...)` conversion passes; otherwise compare the haversine
distance against the limit. -/
def passesDistance (meta : Meta) (distance_limit : Option ℝ)
    (user_loc : UserLoc) : Prop :=
  match distance_limit with
  | none => True
  | some limit =>
      if meta.latitude = .missing ∨ meta.latitude = .empty ∨
          meta.longitude = .missing ∨ meta.longitude = .empty then True
      else if user_loc.lat = .missing ∨ user_loc.lng = .missing then True
      else
        match pyFloat user_loc.lat, pyFloat user_loc.lng,
            pyFloat meta.latitude, pyFloat meta.longitude with
        | some ulat, some ulng, some lat, some lng =>
            haversineKm (ulat : ℝ) (ulng : ℝ) (lat : ℝ) (lng : ℝ) ≤ limit
        | _, _, _, _ => True

/-- Model of `_best_effort_special` (lines 106-108): always passes. -/
def bestEffortSpecial (_meta : Meta) (_requirements : List String) : Bool :=
  true

/-- The query fields consumed by `retrieve_restaurants` (lines 152-156). -/
structure RQuery where
  user_location : UserLoc
  distance_limit_km : Option ℝ
  rating_min : Option ℚ
  cuisine : List String
  special_requirements : List String

/-- The keep condition of the retrieval loop (lines 159-167): an item
survives all four `continue` guards. -/
def keepsMeta (norm : String → String) (meta : Meta) (q : RQuery) : Prop :=
  passesCuisineFilter norm meta q.cuisine = true
  ∧ passesRating meta q.rating_min = true
  ∧ passesDistance meta q.distance_limit_km q.user_location
  ∧ bestEffortSpecial meta q.special_requirements = true

/-- The distance computed for a kept item (lines 169-179): only attempted
when both user coordinates are not `None`, and `None` when any of the four
`float(...)` conversions fails. -/
noncomputable def computeDist (user_loc : UserLoc) (meta : Meta) : Option ℝ :=
  if user_loc.lat ≠ .missing ∧ user_loc.lng ≠ .missing then
    match pyFloat user_loc.lat, pyFloat user_loc.lng,
        pyFloat meta.latitude, pyFloat meta.longitude with
    | some ulat, some ulng, some lat, some lng =>
        some (haversineKm (ulat : ℝ) (ulng : ℝ) (lat : ℝ) (lng : ℝ))
    | _, _, _, _ => none
  else none

/-- The coercion `float(meta["f"]) if meta.get("f") not in (None, "") else
0.0` used by `_build_output_item`: a non-empty unparseable value raises
`ValueError` (uncaught there). -/
def coerceField : RawNum → Except PyErr ℚ
  | .missing => .ok 0
  | .empty => .ok 0
  | .num q => .ok q
  | .junk => .error .valueError

/-- Python's `a or b` on strings (empty string falsy), with `None` for a
missing dict entry. -/
def pyStrOr (o : Option String) (alt : String) : String :=
  match o with
  | some s => if s = "" then alt else s
  | none => alt

/-- The output record built by `_build_output_item` (lines 111-122). -/
structure Item where
  name : String
  address : String
  lat : ℚ
  lng : ℚ
  rating : ℚ
  price_range : String
  cuisine : List String
  distance_km : ℝ
  url : String

/-- Model of `_build_output_item` (lines 111-122).  The `distance_km` field
is `distance_km if distance_km is not None else 0.0`: an unknown distance is
reported as the float 0.0, not as a distinguished marker. -/
noncomputable def buildOutputItem (meta : Meta) (distance_km : Option ℝ) :
    Except PyErr Item := do
  let lat ← coerceField meta.latitude
  let lng ← coerceField meta.longitude
  let rating ← coerceField meta.avg_rating
  pure
    { name := pyStrOr meta.name (pyStrOr meta.branch_name ""),
      address := pyStrOr meta.address "",
      lat := lat,
      lng := lng,
      rating := rating,
      price_range := "",
      cuisine := normalizeListField meta.cuisines,
      distance_km := distance_km.getD 0,
      url := pyStrOr meta.detail_url (pyStrOr meta.delivery_url "") }

/-- The cuisine check as worded by claim C9: no cuisine requested, or some
requested token (after alias expansion and normalization) is a substring of
some normalized cuisine/category/name field. -/
def specCuisineOk (norm : String → String) (meta : Meta) (q : RQuery) : Prop :=
  q.cuisine = [] ∨
    ∃ token ∈ expandRequested q.cuisine,
      ∃ field ∈ (normalizeListField meta.cuisines ++
          normalizeListField meta.categories) ++
          [meta.name.getD "", meta.branch_name.getD ""],
        substrIn (norm token) (norm field) = true

/-- The rating check as worded by claim C9: no minimum requested, an
unparseable (or absent) rating, or rating at least the minimum. -/
def specRatingOk (meta : Meta) (q : RQuery) : Prop :=
  q.rating_min = none ∨ pyFloat meta.avg_rating = none ∨
    (∃ rm r, q.rating_min = some rm ∧ pyFloat meta.avg_rating = some r ∧
      rm ≤ r)

/-- The distance check as worded by claim C9: no limit requested, either
side's coordinates unusable (absent, empty or unparseable), or great-circle
distance at most the limit. -/
def specDistanceOk (meta : Meta) (q : RQuery) : Prop :=
  q.distance_limit_km = none
  ∨ pyFloat q.user_location.lat = none ∨ pyFloat q.user_location.lng = none
  ∨ pyFloat meta.latitude = none ∨ pyFloat meta.longitude = none
  ∨ (∃ limit ulat ulng lat lng, q.distance_limit_km = some limit ∧
      pyFloat q.user_location.lat = some ulat ∧
      pyFloat q.user_location.lng = some ulng ∧
      pyFloat meta.latitude = some lat ∧
      pyFloat meta.longitude = some lng ∧
      haversineKm (ulat : ℝ) (ulng : ℝ) (lat : ℝ) (lng : ℝ) ≤ limit)

/-- A concrete kept candidate with coordinates, used for C3. -/
def metaQuanX : Meta :=
  { name := some "Quan X", branch_name := none, cuisines := ["bun"],
    categories := [], avg_rating := .num (9 / 2),
    latitude := .num (33 / 2), longitude := .num (1089 / 10),
    address := some "Da Nang", detail_url := some "http://x", delivery_url := none }

/-- A user location with both coordinates absent (`None`). -/
def userLocNone : UserLoc := { lat := .missing, lng := .missing }

/-- A query with no constraints and no user coordinates. -/
def queryNoConstraints : RQuery :=
  { user_location := userLocNone, distance_limit_km := none,
    rating_min := none, cuisine := [], special_requirements := [] }

/-- A user location with both coordinates present, used in the C3 witness. -/
def userLocDN : UserLoc := { lat := .num 16, lng := .num 108 }

/-- The output item that `_build_output_item` produces for `metaQuanX` at the
user location `userLocDN`. -/
noncomputable def itemQuanX : Item :=
  { name := "Quan X", address := "Da Nang", lat := 33 / 2, lng := 1089 / 10,
    rating := 9 / 2, price_range := "", cuisine := ["bun"],
    distance_km := haversineKm ((16 : ℚ) : ℝ) ((108 : ℚ) : ℝ)
      (((33 : ℚ) / 2 : ℚ) : ℝ) (((1089 : ℚ) / 10 : ℚ) : ℝ),
    url := "http://x" }

/-! ## Theorems -/

theorem schedStep_inv {s : SchedState} (h : SchedInv s) (e : SchedEvent) :
    SchedInv (schedStep s e) := by
  cases e with
  | trigger pos threshold =>
      unfold SchedInv at *
      unfold schedStep triggerRetrainIfNeeded
      by_cases h1 : (pos : ℤ) - (s.meta : ℤ) < threshold
      · simpa [h1] using h
      · cases h2 : s.training with
        | true => simpa [h1, h2] using h
        | false =>
            rw [h2] at h
            simp [h1, h2] at h ⊢
            exact h
  | complete success =>
      unfold SchedInv at *
      unfold schedStep completeTraining
      cases hj : s.jobs with
      | nil => simp
      | cons p rest =>
          rw [hj] at h
          cases h2 : s.training with
          | true =>
              rw [h2] at h
              simp at h
              simp [h]
          | false =>
              rw [h2] at h
              simp at h

theorem schedRun_inv {s : SchedState} (h : SchedInv s) (evs : List SchedEvent) :
    SchedInv (schedRun s evs) := by
  induction evs generalizing s with
  | nil => simpa [schedRun]
  | cons e evs ih =>
      have := schedStep_inv h e
      simpa [schedRun] using ih this

/-- C1, counterexample.  The claim says that with watermark 20, positive count
5 and threshold 10 the watermark is treated as 0 and retraining triggers.  In
the code `pos - last` is ordinary signed integer subtraction, `5 - 20 = -15 <
10`, so `trigger_retrain_if_needed` returns without launching anything even
though the scheduler is idle. -/
theorem C1_counterexample :
    (triggerRetrainIfNeeded 5 10
      { training := false, jobs := [], meta := 20 }).2 = false := by
  decide

/-- C1 (amended): the retrain trigger launches a background training job
exactly when the scheduler is idle and the signed delta
`current_positive_count - watermark` meets or exceeds the threshold.  There is
no special treatment of an inconsistent watermark: when the watermark exceeds
the current positive count the delta is negative and (for a positive
threshold) retraining does not trigger.  With watermark 5 and threshold 10, a
positive count of 14 gives delta 9 and does not trigger, 15 gives delta 10 and
triggers. -/
theorem C1_trigger_iff_idle_and_delta_ge_threshold
    (pos : ℕ) (threshold : ℤ) (s : SchedState) :
    (triggerRetrainIfNeeded pos threshold s).2 = true ↔
      s.training = false ∧ threshold ≤ (pos : ℤ) - (s.meta : ℤ) := by
  unfold triggerRetrainIfNeeded
  by_cases h1 : (pos : ℤ) - (s.meta : ℤ) < threshold
  · simp [h1]
  · cases h2 : s.training with
    | true => simp [h1, h2]
    | false =>
        simp [h1, h2]
        omega

/-- C7: at most one retraining job is ever active.  Along every interleaving
of trigger checks and job completions from the initial state the number of
running background jobs never exceeds one; a trigger check that arrives while
the `_TRAINING` flag is set is a no-op (nothing is queued); and two trigger
checks issued in rapid succession while the first job has not completed
launch exactly one job. -/
theorem C7_at_most_one_training_job :
    (∀ evs : List SchedEvent, (schedRun SchedState.init evs).jobs.length ≤ 1)
    ∧ (∀ (pos : ℕ) (threshold : ℤ) (s : SchedState), s.training = true →
        triggerRetrainIfNeeded pos threshold s = (s, false))
    ∧ (schedRun { training := false, jobs := [], meta := 5 }
        [.trigger 15 10, .trigger 16 10]).jobs.length = 1 := by
  refine ⟨?_, ?_, by decide⟩
  · intro evs
    have h0 : SchedInv SchedState.init := by simp [SchedInv, SchedState.init]
    have := schedRun_inv h0 evs
    unfold SchedInv at this
    rw [this]
    cases (schedRun SchedState.init evs).training <;> simp
  · intro pos threshold s h
    unfold triggerRetrainIfNeeded
    by_cases h1 : (pos : ℤ) - (s.meta : ℤ) < threshold
    · simp [h1]
    · simp [h1, h]

/-- C7 witness: the trigger no-op clause applied in a state whose flag is set,
and the invariant applied to a concrete interleaving. -/
theorem C7_at_most_one_training_job_witness :
    triggerRetrainIfNeeded 99 0 { training := true, jobs := [7], meta := 0 } =
      ({ training := true, jobs := [7], meta := 0 }, false)
    ∧ (schedRun SchedState.init
        [.trigger 15 10, .trigger 16 10, .complete true]).jobs.length ≤ 1 :=
  ⟨C7_at_most_one_training_job.2.1 99 0 _ rfl,
   C7_at_most_one_training_job.1 [.trigger 15 10, .trigger 16 10, .complete true]⟩

/-- C8: when the background job completes, a successful run persists as the
new watermark the positive count observed at trigger time (the count the
trigger enqueued with the job, not a completion-time count — the completion
transition takes no such input), a failed run leaves the watermark unchanged
(the exception is swallowed: `completeTraining` is total, so nothing
propagates to the caller of the trigger check), and in both cases the
`_TRAINING` flag is cleared so the scheduler returns to idle.  The final
conjunct shows a trigger enqueues exactly the positive count it observed. -/
theorem C8_completion_updates_watermark_and_returns_to_idle
    (s : SchedState) (p : ℕ) (rest : List ℕ) (hj : s.jobs = p :: rest) :
    (completeTraining true s).meta = p
    ∧ (completeTraining false s).meta = s.meta
    ∧ (∀ success, (completeTraining success s).training = false)
    ∧ (∀ (pos : ℕ) (threshold : ℤ) (s₂ : SchedState),
        (triggerRetrainIfNeeded pos threshold s₂).1.jobs = s₂.jobs ∨
        (triggerRetrainIfNeeded pos threshold s₂).1.jobs = s₂.jobs ++ [pos]) := by
  refine ⟨by simp [completeTraining, hj], by simp [completeTraining, hj],
    ?_, ?_⟩
  · intro success
    unfold completeTraining
    cases s.jobs <;> simp
  · intro pos threshold s₂
    unfold triggerRetrainIfNeeded
    by_cases h1 : (pos : ℤ) - (s₂.meta : ℤ) < threshold
    · simp [h1]
    · cases h2 : s₂.training <;> simp [h1, h2]

/-- C8 witness: the completion behaviour evaluated in a concrete state with
one running job that observed positive count 42 at trigger time. -/
theorem C8_completion_witness :
    (completeTraining true { training := true, jobs := [42], meta := 3 }).meta = 42
    ∧ (completeTraining false { training := true, jobs := [42], meta := 3 }).meta = 3 :=
  ⟨(C8_completion_updates_watermark_and_returns_to_idle _ 42 [] rfl).1,
   (C8_completion_updates_watermark_and_returns_to_idle
      { training := true, jobs := [42], meta := 3 } 42 [] rfl).2.1⟩

/-- C4: `CFModel.score` returns exactly 0 whenever either id is absent from
its index map or the resolved offset is out of bounds for the corresponding
factor matrix (and, being a total function, it cannot raise there); when both
ids resolve in bounds on a loaded model, the score is the inner product of the
user's and the item's factor vectors. -/
theorem C4_offline_score_zero_or_inner_product (m : CFModel) (u i : String) :
    ((m.user_index.lookup u = none ∨ m.item_index.lookup i = none) →
      m.score u i = 0)
    ∧ (∀ ui ii, m.user_index.lookup u = some ui →
        m.item_index.lookup i = some ii →
        (m.user_factors.length ≤ ui ∨ m.item_factors.length ≤ ii) →
        m.score u i = 0)
    ∧ (∀ ui ii, m.loaded = true →
        m.user_index.lookup u = some ui →
        m.item_index.lookup i = some ii →
        ui < m.user_factors.length → ii < m.item_factors.length →
        m.score u i =
          dotZip (m.user_factors.getD ui []) (m.item_factors.getD ii [])) := by
  refine ⟨?_, ?_, ?_⟩
  · intro h
    unfold CFModel.score
    by_cases hl : m.loaded = false
    · simp [hl]
    · rcases h with h | h <;> simp [hl, h]
  · intro ui ii hu hi hb
    unfold CFModel.score
    by_cases hl : m.loaded = false
    · simp [hl]
    · simp [hl, hu, hi, hb]
  · intro ui ii hl hu hi hbu hbi
    unfold CFModel.score
    simp [hl, hu, hi, not_le.mpr hbu, not_le.mpr hbi]

/-- C4 witness: on the concrete loaded model, a resolvable pair scores the
inner product `1*3 + 2*4 = 11` and an unknown user id scores 0. -/
theorem C4_offline_score_witness :
    cfModelExample.score "u1" "i1" = 11 ∧ cfModelExample.score "zz" "i1" = 0 := by
  constructor
  · have h := (C4_offline_score_zero_or_inner_product cfModelExample "u1" "i1").2.2
      0 0 rfl (by decide) (by decide) (by decide) (by decide)
    rw [h]
    norm_num [dotZip, cfModelExample]
  · exact (C4_offline_score_zero_or_inner_product cfModelExample "zz" "i1").1
      (Or.inl (by decide))

/-- Score of the bias-only vector in the freshly initialized model. -/
theorem score_init_unit :
    (SimpleLinUCB.init 5 1).score ![1, 0, 0, 0, 0] = 1 := by
  simp [SimpleLinUCB.score, SimpleLinUCB.theta, SimpleLinUCB.init,
    Fin.sum_univ_five]

/-- Score of the bias-only vector after one update on it with reward `r`. -/
theorem score_after_unit (r : ℝ) :
    ((SimpleLinUCB.init 5 1).update ![1, 0, 0, 0, 0] r).score ![1, 0, 0, 0, 0]
      = r / 2 + Real.sqrt (1 / 2) := by
  simp [SimpleLinUCB.score, SimpleLinUCB.theta, SimpleLinUCB.update,
    SimpleLinUCB.init, Fin.sum_univ_five]
  norm_num

/-- C2, counterexample.  The initial model (default `alpha = 1`) is reachable
and reward `1/10 > 0`, yet one update with the bias-only vector strictly
DECREASES the score of that vector: the exploitation term only rises to
`(1/10)/2` while the exploration bonus shrinks from `sqrt 1 = 1` to
`sqrt (1/2)`, and `1/20 + sqrt (1/2) < 1`. -/
theorem C2_counterexample :
    (SimpleLinUCB.init 5 1).Reachable
    ∧ (0 : ℝ) < 1 / 10
    ∧ ((SimpleLinUCB.init 5 1).update ![1, 0, 0, 0, 0] (1 / 10)).score
        ![1, 0, 0, 0, 0]
      < (SimpleLinUCB.init 5 1).score ![1, 0, 0, 0, 0] := by
  refine ⟨⟨[], rfl⟩, by norm_num, ?_⟩
  rw [score_init_unit, score_after_unit]
  have h : Real.sqrt (1 / 2) < 19 / 20 :=
    (Real.sqrt_lt' (by norm_num)).mpr (by norm_num)
  linarith

/-- C2 (amended): from the initial model state (default `alpha = 1`), one
update with the bias-only feature vector `[1,0,0,0,0]` and reward 1.0 strictly
increases the score returned for that exact vector; for smaller positive
rewards, or from reachable states with a large accumulated `b`, the score can
decrease because the exploration bonus shrinks. -/
theorem C2_update_reward_one_increases_score :
    (SimpleLinUCB.init 5 1).score ![1, 0, 0, 0, 0]
      < ((SimpleLinUCB.init 5 1).update ![1, 0, 0, 0, 0] 1).score
          ![1, 0, 0, 0, 0] := by
  rw [score_init_unit, score_after_unit]
  have h : (1 : ℝ) / 2 < Real.sqrt (1 / 2) :=
    (Real.lt_sqrt (by norm_num)).mpr (by norm_num)
  linarith

/-- C10: after any finite sequence of updates with arbitrary real feature
vectors and rewards, every entry of `A_diag` stays at least 1 (hence nonzero:
the divisions in `_theta` and `score` are by nonzero numbers), and the sum
under the square root in `score` is nonnegative for every input vector, so
`score` is a well-defined total function. -/
theorem C10_A_diag_stays_ge_one (n : ℕ) (alpha : ℝ)
    (l : List ((Fin n → ℝ) × ℝ)) :
    (∀ i, 1 ≤ ((SimpleLinUCB.init n alpha).applyUpdates l).A_diag i)
    ∧ (∀ i, ((SimpleLinUCB.init n alpha).applyUpdates l).A_diag i ≠ 0)
    ∧ (∀ x : Fin n → ℝ,
        0 ≤ ∑ i, (x i) ^ 2 / ((SimpleLinUCB.init n alpha).applyUpdates l).A_diag i) := by
  have key : ∀ (l : List ((Fin n → ℝ) × ℝ)) (m : SimpleLinUCB n),
      (∀ i, 1 ≤ m.A_diag i) → ∀ i, 1 ≤ (m.applyUpdates l).A_diag i := by
    intro l
    induction l with
    | nil => intro m hm i; simpa [SimpleLinUCB.applyUpdates] using hm i
    | cons p l ih =>
        intro m hm i
        have hstep : ∀ j, 1 ≤ (m.update p.1 p.2).A_diag j := by
          intro j
          have := sq_nonneg (p.1 j)
          have := hm j
          simp only [SimpleLinUCB.update]
          linarith
        simpa [SimpleLinUCB.applyUpdates] using
          ih (m.update p.1 p.2) hstep i
  have h1 : ∀ i, 1 ≤ ((SimpleLinUCB.init n alpha).applyUpdates l).A_diag i :=
    key l _ (by intro i; simp [SimpleLinUCB.init])
  refine ⟨h1, ?_, ?_⟩
  · intro i
    have := h1 i
    positivity
  · intro x
    apply Finset.sum_nonneg
    intro i _
    have hpos : 0 < ((SimpleLinUCB.init n alpha).applyUpdates l).A_diag i :=
      lt_of_lt_of_le one_pos (h1 i)
    exact div_nonneg (sq_nonneg _) hpos.le

/-- C5, counterexample.  For a candidate whose price string parses to the
interval `20000-30000` and a user who requested no price range, the claim's
trichotomy yields `price_fit = +1` (price data exists on one side and no
conflict is provable), but the code computes 0 because it keys the 0 case on
the user's bounds alone (`if up_min or up_max:` fails). -/
theorem C5_counterexample :
    featureVector bCandPriced bQueryNoPrice 3
      ≠ ((claimPriceFit bCandPriced bQueryNoPrice : ℚ) : ℝ) := by
  have hl : featureVector bCandPriced bQueryNoPrice 3 = ((0 : ℚ) : ℝ) := by
    simp [featureVector, priceFit, bCandPriced, bQueryNoPrice]
  have hr : claimPriceFit bCandPriced bQueryNoPrice = 1 := by
    simp [claimPriceFit, claimPriceConflict, bCandPriced, bQueryNoPrice]
  rw [hl, hr]
  norm_num

/-- C5 (amended): for every candidate, query and model state, the bandit score
of the candidate's feature vector equals the point estimate
`Σ (b_i / A_diag_i) * x_i` plus the exploration bonus
`alpha * sqrt (Σ x_i² / A_diag_i)`, evaluated on the vector
`[1, rating, -distance_km (0 if unknown), price_fit, cf_score]` — where
`price_fit` is 0 exactly when the user requested no nonzero price bound,
-1 when the candidate's parsed interval provably conflicts with the user's
nonzero bounds, and +1 otherwise (also when the candidate itself has no price
data). -/
theorem C5_score_formula_and_feature_vector
    (m : SimpleLinUCB 5) (c : BCand) (q : BQuery) :
    m.score (featureVector c q) =
      (∑ i, (m.b i / m.A_diag i) * featureVector c q i)
        + m.alpha * Real.sqrt (∑ i, (featureVector c q i) ^ 2 / m.A_diag i)
    ∧ featureVector c q =
        ![1, c.rating.getD 0, -(c.distance_km.getD 0),
          ((amendedPriceFit c q : ℚ) : ℝ), c.cf_score.getD 0] := by
  constructor
  · simp [SimpleLinUCB.score, SimpleLinUCB.theta]
  · have hfit : priceFit c q = amendedPriceFit c q := by
      unfold priceFit amendedPriceFit
      rcases c.price_range.getD (0, 0) with ⟨pmin, pmax⟩
      rcases q.price_range.getD (none, none) with ⟨umin, umax⟩
      by_cases h0 : umin.getD 0 = 0 ∧ umax.getD 0 = 0
      · simp [h0.1, h0.2]
      · have hor : umin.getD 0 ≠ 0 ∨ umax.getD 0 ≠ 0 := by tauto
        simp only [if_pos hor, if_neg h0]
        by_cases hA : umin.getD 0 ≠ 0 ∧ pmax ≠ 0 ∧ pmax < umin.getD 0
        · simp [hA]
        · by_cases hB : umax.getD 0 ≠ 0 ∧ pmin ≠ 0 ∧ umax.getD 0 < pmin
          · simp [hA, hB]
          · have : ¬ ((umin.getD 0 ≠ 0 ∧ pmax ≠ 0 ∧ pmax < umin.getD 0) ∨
                (umax.getD 0 ≠ 0 ∧ pmin ≠ 0 ∧ umax.getD 0 < pmin)) := by tauto
            simp [hA, hB, this]
    unfold featureVector
    rw [hfit]

/-- C6: the code contradicts the claim's contract on every non-empty
candidate list.  In the claim's own scenario (two users sharing one of two
liked items, the candidate being the other user's second liked item with
reward 1.0) the internal `scores` dict does hold `similarity * reward = 1/3`
for the candidate — the scoring arithmetic matches the claim — but
`score_candidates` then raises `TypeError` instead of returning the ranked
list: its fallback loop tests the candidate dict for membership in `seen`, a
set of float scores, and hashing a dict fails.  (The loop is dead code by its
own guard: `cid not in scores` is never true because the defaultdict read
`scores[cid] == 0` inserted every candidate id.) -/
theorem C6_score_one_third_but_typeerror :
    ((onlineScores (OnlineCF.load c6Rows) "u1" [c6Cand]).lookup "c"
      = some (1 / 3))
    ∧ (OnlineCF.load c6Rows).score_candidates "u1" [c6Cand] 3
      = Except.error PyErr.typeError := by
  constructor
  · have h1 : pyStrip "u1" = "u1" := by decide
    have h2 : pyStrip "u2" = "u2" := by decide
    have ha : pyStrip "a" = "a" := by decide
    have hb : pyStrip "b" = "b" := by decide
    have hc : pyStrip "c" = "c" := by decide
    have hj : jaccard ["a", "b"] ["b", "c"] = 1 / 3 := by
      simp [jaccard]
    have hpos : (0 : ℚ) < 1 / 3 := by norm_num
    have hone : (0 : ℚ) < 1 := by norm_num
    have hne : (1 : ℚ) / 3 ≠ 0 := by norm_num
    have hle : ¬ ((1 : ℚ) ≤ 0) := by norm_num
    simp [onlineScores, OnlineCF.load, loadRow, rewardVal, scoreOne,
      simsFor, alUpdate, candId, c6Rows, c6Cand, h1, h2, ha, hb, hc,
      List.lookup, hj, hpos, hone, hne, hle]
  · rfl

/-- Helper: the cuisine guard equals the claim's disjunction. -/
theorem passesCuisineFilter_iff (norm : String → String) (meta : Meta)
    (q : RQuery) :
    passesCuisineFilter norm meta q.cuisine = true ↔
      specCuisineOk norm meta q := by
  unfold passesCuisineFilter specCuisineOk
  cases hc : q.cuisine with
  | nil => simp
  | cons a l =>
      simp [List.any_eq_true]
      constructor
      · rintro ⟨x, hx, h⟩
        rcases h with ⟨f, hf, hs⟩ | ⟨f, hf, hs⟩ | hs | hs
        · exact ⟨x, hx, f, Or.inl hf, hs⟩
        · exact ⟨x, hx, f, Or.inr (Or.inl hf), hs⟩
        · exact ⟨x, hx, meta.name.getD "", Or.inr (Or.inr (Or.inl rfl)), hs⟩
        · exact ⟨x, hx, meta.branch_name.getD "",
            Or.inr (Or.inr (Or.inr rfl)), hs⟩
      · rintro ⟨x, hx, f, hf, hs⟩
        rcases hf with hf | hf | rfl | rfl
        · exact ⟨x, hx, Or.inl ⟨f, hf, hs⟩⟩
        · exact ⟨x, hx, Or.inr (Or.inl ⟨f, hf, hs⟩)⟩
        · exact ⟨x, hx, Or.inr (Or.inr (Or.inl hs))⟩
        · exact ⟨x, hx, Or.inr (Or.inr (Or.inr hs))⟩

/-- Helper: the rating guard equals the claim's disjunction. -/
theorem passesRating_iff (meta : Meta) (q : RQuery) :
    passesRating meta q.rating_min = true ↔ specRatingOk meta q := by
  unfold passesRating specRatingOk
  cases hr : q.rating_min with
  | none => simp
  | some rm =>
      cases hp : pyFloat meta.avg_rating with
      | none => simp
      | some r => simp

/-- Helper: the distance guard equals the claim's disjunction (unusable
coordinates on either side — absent, empty or unparseable — pass). -/
theorem passesDistance_iff (meta : Meta) (q : RQuery) :
    passesDistance meta q.distance_limit_km q.user_location ↔
      specDistanceOk meta q := by
  unfold passesDistance specDistanceOk
  cases hd : q.distance_limit_km with
  | none => simp
  | some limit =>
      cases hml : meta.latitude <;> cases hmg : meta.longitude <;>
        cases hul : q.user_location.lat <;> cases hug : q.user_location.lng <;>
          simp [pyFloat]

/-- C9: the retrieval loop keeps an item if and only if all three checks of
the claim succeed — (a) no cuisine requested or some expanded, normalized
token is a substring of some normalized cuisine/category/name field; (b) no
minimum rating requested, unparseable rating, or rating at least the minimum;
(c) no distance limit, unusable coordinates on either side, or haversine
distance at most the limit.  `norm` is the (external) text normalization of
`_normalize_text`; the equivalence holds for every normalization. -/
theorem C9_keep_iff_three_checks (norm : String → String) (meta : Meta)
    (q : RQuery) :
    keepsMeta norm meta q ↔
      specCuisineOk norm meta q ∧ specRatingOk meta q ∧
        specDistanceOk meta q := by
  unfold keepsMeta
  rw [passesCuisineFilter_iff, passesRating_iff, passesDistance_iff]
  simp [bestEffortSpecial]

/-- C3, counterexample.  A kept candidate whose own coordinates are present
but whose user location is absent gets `distance_km = 0.0` in the output of
`_build_output_item` — the unknown distance is reported as the number zero,
not as a distinguished "unknown" marker, contradicting the claim's "reported
as unknown, not as zero". -/
theorem C3_counterexample :
    keepsMeta (fun s => s) metaQuanX queryNoConstraints
    ∧ (buildOutputItem metaQuanX
          (computeDist queryNoConstraints.user_location metaQuanX)).map
        (fun it => it.distance_km) = Except.ok 0 := by
  constructor
  · refine ⟨?_, ?_, ?_, ?_⟩ <;>
      simp [passesCuisineFilter, passesRating, passesDistance,
        bestEffortSpecial, metaQuanX, queryNoConstraints]
  · simp [buildOutputItem, computeDist, coerceField, metaQuanX,
      queryNoConstraints, userLocNone, Bind.bind, Except.bind, Except.map,
      Functor.map, Except.pure, Pure.pure]

/-- Helper: pyFloat succeeds only on a parsed numeric field. -/
theorem pyFloat_eq_some {x : RawNum} {q : ℚ} (h : pyFloat x = some q) :
    x = .num q := by
  cases x <;> simp_all [pyFloat]

/-- Helper: the distance field of a built output item is the computed
distance when one was attached, and 0.0 otherwise. -/
theorem buildOutputItem_distance (meta : Meta) (d : Option ℝ) (item : Item)
    (h : buildOutputItem meta d = Except.ok item) :
    item.distance_km = d.getD 0 := by
  unfold buildOutputItem at h
  cases h1 : coerceField meta.latitude with
  | error e => simp [h1, Bind.bind, Except.bind] at h
  | ok lat =>
    cases h2 : coerceField meta.longitude with
    | error e => simp [h1, h2, Bind.bind, Except.bind] at h
    | ok lng =>
      cases h3 : coerceField meta.avg_rating with
      | error e =>
          simp [h1, h2, h3, Bind.bind, Except.bind, Functor.map,
            Except.map] at h
      | ok rating =>
          simp [h1, h2, h3, Bind.bind, Except.bind, Functor.map, Except.map,
            Pure.pure, Except.pure] at h
          rw [← h]

/-- C3 (amended): for every kept candidate the filter attaches the computed
haversine distance (Earth radius 6371 km) when the user location is present
and all four coordinates parse; when either side's coordinates are missing
or unusable, the candidate's `distance_km` is reported as the float 0.0 (not
as a distinguished unknown value). -/
theorem C3_distance_haversine_or_zero (u : UserLoc) (meta : Meta) (item : Item)
    (h : buildOutputItem meta (computeDist u meta) = Except.ok item) :
    (∀ ulat ulng lat lng,
        pyFloat u.lat = some ulat → pyFloat u.lng = some ulng →
        pyFloat meta.latitude = some lat → pyFloat meta.longitude = some lng →
        item.distance_km =
          haversineKm (ulat : ℝ) (ulng : ℝ) (lat : ℝ) (lng : ℝ))
    ∧ ((pyFloat u.lat = none ∨ pyFloat u.lng = none ∨
          pyFloat meta.latitude = none ∨ pyFloat meta.longitude = none) →
        item.distance_km = 0) := by
  have hd := buildOutputItem_distance meta _ item h
  constructor
  · intro ulat ulng lat lng h1 h2 h3 h4
    rw [hd]
    have e1 := pyFloat_eq_some h1
    have e2 := pyFloat_eq_some h2
    have e3 := pyFloat_eq_some h3
    have e4 := pyFloat_eq_some h4
    simp [computeDist, e1, e2, e3, e4, pyFloat]
  · intro hnone
    rw [hd]
    unfold computeDist
    by_cases hg : u.lat ≠ .missing ∧ u.lng ≠ .missing
    · cases hA : pyFloat u.lat <;> cases hB : pyFloat u.lng <;>
        cases hC : pyFloat meta.latitude <;> cases hD : pyFloat meta.longitude <;>
          simp [hg, hA, hB, hC, hD] <;> simp_all
    · simp [hg]

/-- C3 witness: with both coordinate pairs present, the built output item
carries exactly the haversine distance between them. -/
theorem C3_distance_witness :
    itemQuanX.distance_km =
      haversineKm ((16 : ℚ) : ℝ) ((108 : ℚ) : ℝ)
        (((33 : ℚ) / 2 : ℚ) : ℝ) (((1089 : ℚ) / 10 : ℚ) : ℝ) := by
  have hbun : normalizeListField ["bun"] = ["bun"] := by decide
  have hb : buildOutputItem metaQuanX (computeDist userLocDN metaQuanX) =
      Except.ok itemQuanX := by
    simp [buildOutputItem, computeDist, coerceField, metaQuanX, userLocDN,
      pyFloat, itemQuanX, pyStrOr, hbun, Bind.bind, Except.bind,
      Pure.pure, Except.pure]
  exact (C3_distance_haversine_or_zero userLocDN metaQuanX itemQuanX hb).1
    16 108 (33 / 2) (1089 / 10) rfl rfl rfl rfl

end RestaurantRec